import Mathlib

/-!
Shallow embedding of the content-to-video generation pipeline
(script generation, duration normalization, audio synthesis, slide
rendering, video composition, publishing, orchestration) together with
theorems about its behaviour.

Modelling conventions:
- TypeScript numbers that hold whole second counts or indices are
  modelled as `Nat`; the speech-speed multiplier is a rational.
- The JavaScript floating-point expression
  `Math.floor(duration * (max / total))` is modelled by exact natural
  division `duration * max / total`, which is the floor of the exact
  rational product.
- Host primitives (HTTP calls, `JSON.parse`, the ffmpeg subprocess,
  clocks) are passed in as explicit oracle parameters; a rejected
  promise or thrown exception is an `Except.error` carrying the message.
- File-system effects are tracked as a log of actions naming the paths
  written or recursively removed; file contents are not tracked.
-/

namespace VideoGen

/-- Kind of source record, `'issue' | 'pr'` in `extract-content`. -/
inductive ContentType where
  | issue
  | pr
deriving DecidableEq

/-- String value of the TypeScript union member, as interpolated by
template literals. -/
def ContentType.str : ContentType → String
  | .issue => "issue"
  | .pr => "pr"

/-- The fields of `IssueContent`/`PRContent` that the verified functions
read (`type`, `number`, `title`, `body`); author, labels, comments and
PR statistics are only used by prompt construction, which is out of
scope. -/
structure Content where
  type : ContentType
  number : Nat
  title : String
  body : String
deriving DecidableEq

/-- Section type union from `generate-script`. -/
inductive SectionType where
  | intro
  | main
  | code
  | summary
  | outro
deriving DecidableEq

/-- String value of the section type, as interpolated by template
literals. -/
def SectionType.str : SectionType → String
  | .intro => "intro"
  | .main => "main"
  | .code => "code"
  | .summary => "summary"
  | .outro => "outro"

/-- `ScriptSection` from `generate-script`. Optional fields are
`Option`s; `duration` is a whole number of seconds. -/
structure ScriptSection where
  type : SectionType
  heading : String
  narration : String
  visualNotes : Option String := none
  duration : Nat
  codeSnippet : Option String := none
  bulletPoints : Option (List String) := none
deriving DecidableEq

/-- Metadata block of `VideoScript`. -/
structure ScriptMetadata where
  sourceType : ContentType
  sourceNumber : Nat
  generatedAt : String
deriving DecidableEq

/-- `VideoScript` from `generate-script`. -/
structure VideoScript where
  title : String
  description : String
  sections : List ScriptSection
  estimatedDuration : Nat
  metadata : ScriptMetadata
deriving DecidableEq

/-- `sections.reduce((sum, section) => sum + section.duration, 0)`. -/
def sumDurations (l : List ScriptSection) : Nat :=
  l.foldl (fun acc s => acc + s.duration) 0

/-- The data-model invariant: the stored total equals the sum of the
current section durations. -/
def scriptConsistent (s : VideoScript) : Prop :=
  s.estimatedDuration = sumDurations s.sections

instance scriptConsistentDec (s : VideoScript) : Decidable (scriptConsistent s) :=
  inferInstanceAs (Decidable (s.estimatedDuration = sumDurations s.sections))

/-- JavaScript `a || b` on an optional string (`undefined` and the empty
string are falsy). -/
def jsOrStr (a : Option String) (b : String) : String :=
  match a with
  | none => b
  | some s => if s = "" then b else s

/-- JavaScript `a || b` on a number already known to be a natural
(`0` is falsy). -/
def jsOrNat (a : Nat) (b : Nat) : Nat :=
  if a = 0 then b else a

/-- JavaScript `s.substring(0, n)`: the first `n` characters of `s` (all
of `s` when it is shorter). -/
def jsSubstring (s : String) (n : Nat) : String :=
  String.mk (s.data.take n)

/-- Opening-brace character, written by code point to keep it out of
literals. -/
def braceOpen : Char := Char.ofNat 123

/-- Closing-brace character, written by code point. -/
def braceClose : Char := Char.ofNat 125

/-- Index of the last occurrence of a character in a list, if any. -/
def lastIdxOf? (cs : List Char) (c : Char) : Option Nat :=
  match cs.reverse.findIdx? (fun x => x = c) with
  | none => none
  | some k => some (cs.length - 1 - k)

/-- The regular expression `scriptText.match(braces-greedy)` in
`parseScriptFromGPT`: the leftmost opening brace, extended greedily to
the last closing brace in the reply; `none` when the reply has no such
balanced-delimiter block. -/
def extractJsonBlock (s : String) : Option String :=
  let cs := s.data
  match cs.findIdx? (fun x => x = braceOpen), lastIdxOf? cs braceClose with
  | some i, some j =>
      if i < j then some (String.mk ((cs.drop i).take (j - i + 1))) else none
  | some _, none => none
  | none, _ => none

/-- Shape of the object decoded from the extracted block: any of the
three top-level fields may be missing in the model reply. -/
structure ParsedScript where
  title : Option String
  description : Option String
  sections : Option (List ScriptSection)

/-- The `createFallbackScript` function: the deterministic three-section
script used when parsing the model reply fails. `now` stands for
`new Date().toISOString()`. -/
def createFallbackScript (content : Content) (now : String) : VideoScript :=
  let kindWord := match content.type with
    | .pr => "Pull Request"
    | .issue => "Issue"
  let num := content.number
  let title := content.title
  let tyStr := content.type.str
  let body500 := jsSubstring content.body 500
  let sections : List ScriptSection :=
    [ { type := .intro
        heading := "Introduction"
        narration :=
          s!"Welcome! Today we\x27re looking at {kindWord} number {num}: {title}"
        visualNotes := some "Show title slide with issue/PR number"
        duration := 15 }
    , { type := .main
        heading := "Overview"
        narration := body500 ++ "..."
        visualNotes := some "Show main content as bullet points"
        duration := 120
        bulletPoints :=
          some (((content.body.splitOn "\n").filter
                  (fun l => l.trim != "")).take 5) }
    , { type := .summary
        heading := "Summary"
        narration :=
          s!"That\x27s a quick overview of {title}. Check out the full details in the description below."
        visualNotes := some "Show summary slide"
        duration := 30 } ]
  { title := content.title
    description := s!"Video generated from GitHub {tyStr} #{num}"
    sections := sections
    estimatedDuration := sumDurations sections
    metadata :=
      { sourceType := content.type
        sourceNumber := content.number
        generatedAt := now } }

/-- The `parseScriptFromGPT` function. `decode` stands for
`JSON.parse` plus field access on the extracted block (a host
primitive); `none` models a parse exception. A missing `sections` array
makes the `reduce` call throw, which the surrounding `try` converts to
the fallback script, so parsing never raises. -/
def parseScriptFromGPT (decode : String → Option ParsedScript)
    (scriptText : String) (content : Content) (now : String) : VideoScript :=
  match extractJsonBlock scriptText with
  | none => createFallbackScript content now
  | some block =>
    match decode block with
    | none => createFallbackScript content now
    | some parsed =>
      match parsed.sections with
      | none => createFallbackScript content now
      | some secs =>
        let num := content.number
        let tyStr := content.type.str
        { title := jsOrStr parsed.title content.title
          description :=
            jsOrStr parsed.description
              s!"Video generated from {tyStr} #{num}"
          sections := secs
          estimatedDuration :=
            secs.foldl (fun acc s => acc + jsOrNat s.duration 0) 0
          metadata :=
            { sourceType := content.type
              sourceNumber := content.number
              generatedAt := now } }

/-- The `validateAndAdjustScript` function. `Math.floor(d * ratio)` with
`ratio = maxDuration / estimatedDuration` is the exact floor
`d * maxDuration / estimatedDuration`. -/
def validateAndAdjustScript (script : VideoScript)
    (maxDuration : Nat := 600) : VideoScript :=
  if script.estimatedDuration ≤ maxDuration then
    script
  else
    let adjustedSections := script.sections.map
      (fun sec =>
        { sec with
            duration := sec.duration * maxDuration / script.estimatedDuration })
    { script with
        sections := adjustedSections
        estimatedDuration := sumDurations adjustedSections }

/-- Sample record used by concrete witnesses: record #6 titled "Demo". -/
def demoContent : Content :=
  { type := .issue, number := 6, title := "Demo", body := "hello" }

/-- Sample script from the specification: five sections with durations
15, 120, 45, 60 and 15, total 255. -/
def demoScript : VideoScript :=
  { title := "Demo"
    description := "d"
    sections :=
      [ { type := .intro, heading := "a", narration := "na", duration := 15 }
      , { type := .main, heading := "b", narration := "nb", duration := 120 }
      , { type := .code, heading := "c", narration := "nc", duration := 45 }
      , { type := .summary, heading := "d", narration := "nd", duration := 60 }
      , { type := .outro, heading := "e", narration := "ne", duration := 15 } ]
    estimatedDuration := 255
    metadata := { sourceType := .issue, sourceNumber := 6, generatedAt := "t0" } }

mutual

/-- Token mode of JavaScript `text.split(whitespace-runs)`: collect the
current token, emitting it when a whitespace character or the end of the
input is reached. Mirrors the semantics of `split` with a one-or-more
whitespace pattern, including the empty edge tokens produced by leading
and trailing whitespace. -/
def wsSplitTok (cs : List Char) (cur : List Char) : List String :=
  match cs with
  | [] => [String.mk cur.reverse]
  | c :: rest =>
    if c.isWhitespace then String.mk cur.reverse :: wsSplitSep rest
    else wsSplitTok rest (c :: cur)
termination_by cs.length

/-- Separator mode of the whitespace split: skip the rest of the current
whitespace run; a run ending the input contributes a trailing empty
token. -/
def wsSplitSep (cs : List Char) : List String :=
  match cs with
  | [] => [""]
  | c :: rest =>
    if c.isWhitespace then wsSplitSep rest else wsSplitTok rest [c]
termination_by cs.length

end

/-- JavaScript `text.split` on a one-or-more-whitespace pattern. -/
def jsSplitWs (s : String) : List String :=
  wsSplitTok s.data []

/-- `text.split(whitespace).length` from `estimateAudioDuration`. -/
def wordCount (text : String) : Nat :=
  (jsSplitWs text).length

/-- The `estimateAudioDuration` function: `Math.ceil` of word count over
`2.5 * speed` words per second, in exact rational arithmetic. -/
def estimateAudioDuration (text : String) (speed : ℚ := 1) : Nat :=
  let wordsPerSecond : ℚ := 2.5 * speed
  let duration : ℚ := (wordCount text : ℚ) / wordsPerSecond
  (Int.ceil duration).toNat

/-- The skip condition `!narration || narration.trim().length === 0` of
`generateAudio`: the narration is empty or whitespace-only. -/
def jsIsBlank (s : String) : Bool :=
  s.data.all (fun c => c.isWhitespace)

instance exceptDecEq {ε α : Type} [DecidableEq ε] [DecidableEq α] :
    DecidableEq (Except ε α) := fun a b =>
  match a, b with
  | .error e, .error f =>
    if h : e = f then .isTrue (by rw [h])
    else .isFalse (by intro hh; cases hh; exact h rfl)
  | .error _, .ok _ => .isFalse (by intro hh; cases hh)
  | .ok _, .error _ => .isFalse (by intro hh; cases hh)
  | .ok v, .ok w =>
    if h : v = w then .isTrue (by rw [h])
    else .isFalse (by intro hh; cases hh; exact h rfl)

/-- A tracked file-system effect: a file write or a recursive removal,
identified by path. -/
inductive FsAction where
  | write (path : String)
  | rmrf (path : String)
deriving DecidableEq

/-- `AudioSegment` from `generate-audio`. -/
structure AudioSegment where
  sectionIndex : Nat
  audioPath : String
  duration : Nat
  text : String
deriving DecidableEq

/-- `AudioGenerationResult` from `generate-audio`. -/
structure AudioGenerationResult where
  segments : List AudioSegment
  totalDuration : Nat
  outputDir : String
deriving DecidableEq

/-- The per-section audio file path
`path.join(outputDir, section_i_type.mp3)`. -/
def audioSegmentPath (outputDir : String) (i : Nat) (t : SectionType) : String :=
  let st := t.str
  s!"{outputDir}/section_{i}_{st}.mp3"

/-- The loop body of `generateAudio`, iterating sections from index `i`:
blank narrations are skipped; a failed speech call aborts the batch with
the thrown message; otherwise the raw audio is persisted and a segment
with the analytic duration estimate is appended. `tts` is the speech
service oracle. -/
def generateAudioGo (tts : Nat → String → Except String Unit)
    (outputDir : String) (speed : ℚ) (i : Nat) :
    List ScriptSection → Except String (List AudioSegment × Nat × List FsAction)
  | [] => .ok ([], 0, [])
  | sec :: rest =>
    if jsIsBlank sec.narration then
      generateAudioGo tts outputDir speed (i + 1) rest
    else
      match tts i sec.narration with
      | .error e => .error e
      | .ok _ =>
        let audioPath := audioSegmentPath outputDir i sec.type
        let d := estimateAudioDuration sec.narration speed
        match generateAudioGo tts outputDir speed (i + 1) rest with
        | .error e => .error e
        | .ok (segs, total, log) =>
          .ok ({ sectionIndex := i, audioPath := audioPath, duration := d
                 text := sec.narration } :: segs,
               d + total, FsAction.write audioPath :: log)

/-- The `generateAudio` function. -/
def generateAudio (script : VideoScript) (outputDir : String) (speed : ℚ)
    (tts : Nat → String → Except String Unit) :
    Except String (AudioGenerationResult × List FsAction) :=
  match generateAudioGo tts outputDir speed 0 script.sections with
  | .error e => .error e
  | .ok (segs, total, log) =>
    .ok ({ segments := segs, totalDuration := total, outputDir := outputDir },
         log)

/-- `SlideImage` from `generate-slides`. -/
structure SlideImage where
  sectionIndex : Nat
  imagePath : String
  «section» : ScriptSection
deriving DecidableEq

/-- `SlideGenerationResult` from `generate-slides`. -/
structure SlideGenerationResult where
  slides : List SlideImage
  outputDir : String
deriving DecidableEq

/-- Index of the first occurrence of `pat` in `cs`, if any. -/
def firstOccurIdx? (pat : List Char) : List Char → Option Nat
  | [] => if pat.isPrefixOf [] then some 0 else none
  | c :: t =>
    if pat.isPrefixOf (c :: t) then some 0
    else (firstOccurIdx? pat t).map (fun k => k + 1)

/-- JavaScript `s.replace(pat, repl)` with a string pattern: replaces
the first occurrence only. -/
def jsReplaceFirst (s pat repl : String) : String :=
  match firstOccurIdx? pat.data s.data with
  | none => s
  | some i =>
    String.mk (s.data.take i) ++ repl
      ++ String.mk (s.data.drop (i + pat.data.length))

/-- Style options of `generateSlides`; they only influence the markup
text, whose contents the model does not track. -/
structure SlideConfig where
  resolution : String
  backgroundColor : String
  textColor : String
  accentColor : String

/-- The loop body of `generateSlides` from index `i`: one slide record
per section unconditionally; per section the markup is saved to the
`.html` debug path and `createPlaceholderSlide` writes a text
placeholder to the image path with `.png` replaced by `.txt` — no file
is produced at the recorded `.png` path itself. -/
def generateSlidesGo (outputDir : String) (i : Nat) :
    List ScriptSection → List SlideImage × List FsAction
  | [] => ([], [])
  | sec :: rest =>
    let st := sec.type.str
    let imagePath := s!"{outputDir}/slide_{i}_{st}.png"
    let htmlPath := s!"{outputDir}/slide_{i}_{st}.html"
    let txtPath := jsReplaceFirst imagePath ".png" ".txt"
    let (slides, log) := generateSlidesGo outputDir (i + 1) rest
    ({ sectionIndex := i, imagePath := imagePath, «section» := sec } :: slides,
     FsAction.write htmlPath :: FsAction.write txtPath :: log)

/-- The `generateSlides` function. -/
def generateSlides (script : VideoScript) (outputDir : String)
    (_config : SlideConfig) : SlideGenerationResult × List FsAction :=
  let (slides, log) := generateSlidesGo outputDir 0 script.sections
  ({ slides := slides, outputDir := outputDir }, log)

/-- `VideoCompositionResult` from `compose-video`. -/
structure VideoCompositionResult where
  videoPath : String
  duration : Nat
  resolution : String
deriving DecidableEq

/-- The per-slide stream filter pushed by `buildFilterComplex`: scale to
the target resolution, set the sample aspect ratio and frame rate, and
loop the still for `fps * duration` frames, labelling the stream by the
slide index. -/
def videoSegmentFilter (resolution : String) (fps : Nat) (index : Nat)
    (duration : Nat) : String :=
  let size := fps * duration
  s!"[{index}:v]scale={resolution},setsar=1,fps={fps},loop=loop=-1:size={size}:start=0[v{index}]"

/-- The `slides.forEach((slide, index) => ...)` loop of
`buildFilterComplex` from index `i`: a slide index with no audio segment
at the same position pushes nothing (`if (!audioSegment) return`). -/
def buildFilterListGo (audioSegments : List AudioSegment)
    (resolution : String) (fps : Nat) (i : Nat) :
    List SlideImage → List String
  | [] => []
  | _ :: rest =>
    match audioSegments[i]? with
    | none => buildFilterListGo audioSegments resolution fps (i + 1) rest
    | some seg =>
      videoSegmentFilter resolution fps i seg.duration
        :: buildFilterListGo audioSegments resolution fps (i + 1) rest

/-- The per-slide filter strings pushed by `buildFilterComplex`. -/
def buildFilterList (audioSegments : List AudioSegment)
    (slides : List SlideImage) (resolution : String) (fps : Nat) :
    List String :=
  buildFilterListGo audioSegments resolution fps 0 slides

/-- The concatenation stage of `buildFilterComplex`: one `[vi]` label
per slide, `n` equal to the slide count; a single slide is passed
through `copy` instead. -/
def concatStageFilter (slides : List SlideImage) : String :=
  if slides.length > 1 then
    let n := slides.length
    String.join ((List.range n).map (fun i => s!"[v{i}]"))
      ++ s!"concat=n={n}:v=1:a=0[outv]"
  else
    "[v0]copy[outv]"

/-- The `buildFilterComplex` function (the unused transition-duration
parameter of the source signature is kept). -/
def buildFilterComplex (audioSegments : List AudioSegment)
    (slides : List SlideImage) (resolution : String) (fps : Nat)
    (_transitionDuration : Nat) : String :=
  String.intercalate ";"
    (buildFilterList audioSegments slides resolution fps
      ++ [concatStageFilter slides])

/-- Modelled from the claim wording: the per-section stream for index
`i` of the audio segment list — the slide at that index scaled to the
resolution, at the configured frame rate, looped for `duration * fps`
frames. -/
def specStreamFilter (resolution : String) (fps : Nat) (i : Nat)
    (duration : Nat) : String :=
  let size := duration * fps
  s!"[{i}:v]scale={resolution},setsar=1,fps={fps},loop=loop=-1:size={size}:start=0[v{i}]"

/-- Modelled from the claim wording: one stream per audio segment, in
audio-list order, starting at index `i`. -/
def specStreamsGo (resolution : String) (fps : Nat) (i : Nat) :
    List AudioSegment → List String
  | [] => []
  | seg :: rest =>
    specStreamFilter resolution fps i seg.duration
      :: specStreamsGo resolution fps (i + 1) rest

/-- Modelled from the claim wording, for comparison with
`buildFilterComplex`: the streams that are concatenated are exactly the
per-section streams, one per audio segment, in order (a single stream is
passed through unchanged). -/
def specFilterGraph (audioSegments : List AudioSegment)
    (resolution : String) (fps : Nat) : String :=
  let n := audioSegments.length
  let concatPart :=
    if n > 1 then
      String.join ((List.range n).map (fun i => s!"[v{i}]"))
        ++ s!"concat=n={n}:v=1:a=0[outv]"
    else
      "[v0]copy[outv]"
  String.intercalate ";"
    (specStreamsGo resolution fps 0 audioSegments ++ [concatPart])

/-- Encoding options of `composeVideo`. -/
structure ComposeConfig where
  resolution : String
  fps : Nat
  bitrate : String

/-- The `composeVideo` function. `ffmpeg` is the encoding-subprocess
oracle; a non-zero exit becomes the wrapped thrown message. The reported
duration is the sum of the audio segment estimates, not a probe of the
written file. -/
def composeVideo (_script : VideoScript) (audioSegments : List AudioSegment)
    (_slides : List SlideImage) (outputPath : String)
    (config : ComposeConfig) (ffmpeg : Except String Unit) :
    Except String VideoCompositionResult :=
  match ffmpeg with
  | .error e => .error s!"Video composition failed: {e}"
  | .ok _ =>
    .ok { videoPath := outputPath
          duration := audioSegments.foldl (fun acc seg => acc + seg.duration) 0
          resolution := config.resolution }

/-- `UploadResult` from `upload-youtube`. -/
structure UploadResult where
  videoId : String
  url : String
  title : String
  uploadedAt : String
deriving DecidableEq

/-- An HTTP response as consumed by the publisher: success flag and body
text. -/
structure HttpResponse where
  ok : Bool
  text : String
deriving DecidableEq

/-- Observable outcome of `postVideoLinkToGitHub`: the comment was
posted, or the non-success status was logged. -/
inductive PostLinkOutcome where
  | posted
  | failedLogged
deriving DecidableEq

/-- The `postVideoLinkToGitHub` function, given the tracker API response
to the comment post. The source logs on a non-success status and falls
through; it has no throw path, so the result is always `Except.ok`. -/
def postVideoLinkToGitHub (response : HttpResponse) :
    Except String PostLinkOutcome :=
  if response.ok = false then Except.ok PostLinkOutcome.failedLogged
  else Except.ok PostLinkOutcome.posted

/-- JavaScript truthiness of an optional string field (`undefined` and
the empty string are falsy). -/
def jsTruthy (o : Option String) : Bool :=
  match o with
  | none => false
  | some s => s != ""

/-- JavaScript `a || b` where `a` is an optional number field. -/
def jsOrNatOpt (a : Option Nat) (b : Nat) : Nat :=
  match a with
  | none => b
  | some n => jsOrNat n b

/-- The optional video-settings bundle of `GenerationConfig`. -/
structure VideoConfigOpts where
  resolution : Option String := none
  fps : Option Nat := none
  bitrate : Option String := none
  voice : Option String := none
  model : Option String := none

/-- `GenerationConfig` from the orchestrator. -/
structure GenerationConfig where
  githubToken : String
  owner : String
  repo : String
  openaiApiKey : String
  youtubeClientId : Option String := none
  youtubeClientSecret : Option String := none
  youtubeRefreshToken : Option String := none
  workingDir : Option String := none
  keepIntermediateFiles : Bool := false
  uploadToYouTube : Bool := false
  postToGitHub : Bool := false
  videoConfig : VideoConfigOpts := {}

/-- `GenerationResult` from the orchestrator; fields absent in the
TypeScript object literal are `none`. -/
structure GenerationResult where
  success : Bool
  script : Option VideoScript := none
  audioResult : Option AudioGenerationResult := none
  slidesResult : Option SlideGenerationResult := none
  videoResult : Option VideoCompositionResult := none
  uploadResult : Option UploadResult := none
  error : Option String := none
  workingDir : String
deriving DecidableEq

/-- Oracles for every host primitive the pipeline touches: the tracker
fetch, the completion call, JSON decoding of the reply block, the speech
service, the encoding subprocess, the two-phase upload, the link-post
response, and the clock. -/
structure PipelineOracles where
  extract : Except String Content
  llmResponse : Except String String
  decode : String → Option ParsedScript
  tts : Nat → String → Except String Unit
  ffmpeg : Except String Unit
  uploadOutcome : Except String UploadResult
  postLinkResponse : HttpResponse
  nowIso : String
  nowMs : Nat

/-- The `generateScript` function: one completion request whose
non-success status or network failure propagates, otherwise the reply is
parsed (with fallback) into a script. -/
def generateScript (llmResponse : Except String String)
    (decode : String → Option ParsedScript) (content : Content)
    (now : String) : Except String VideoScript :=
  match llmResponse with
  | .error e => .error e
  | .ok scriptText => .ok (parseScriptFromGPT decode scriptText content now)

/-- The `generateVideoFromIssueOrPR` orchestrator. The surrounding
`try`/`catch` is modelled by each stage's `Except.error` being converted
into the failed result carrying the message; the returned list is the
log of file writes and removals performed before returning. -/
def generateVideoFromIssueOrPR (ty : ContentType) (number : Nat)
    (config : GenerationConfig) (o : PipelineOracles) :
    GenerationResult × List FsAction :=
  let ms := o.nowMs
  let workingDir := jsOrStr config.workingDir s!"/tmp/video-gen-{ms}"
  let audioDir := workingDir ++ "/audio"
  let slidesDir := workingDir ++ "/slides"
  let outputDir := workingDir ++ "/output"
  match o.extract with
  | .error e =>
    ({ success := false, error := some e, workingDir := workingDir }, [])
  | .ok content =>
    let log1 := [FsAction.write (workingDir ++ "/content.json")]
    match generateScript o.llmResponse o.decode content o.nowIso with
    | .error e =>
      ({ success := false, error := some e, workingDir := workingDir }, log1)
    | .ok script0 =>
      let script := validateAndAdjustScript script0 600
      let log2 := log1 ++ [FsAction.write (workingDir ++ "/script.json")]
      match generateAudio script audioDir 1 o.tts with
      | .error e =>
        ({ success := false, error := some e, workingDir := workingDir }, log2)
      | .ok (audioResult, audioLog) =>
        let log3 := log2 ++ audioLog
        let slideCfg : SlideConfig :=
          { resolution := jsOrStr config.videoConfig.resolution "1920x1080"
            backgroundColor := "#1a1a2e"
            textColor := "#ffffff"
            accentColor := "#00d4ff" }
        let (slidesResult, slideLog) := generateSlides script slidesDir slideCfg
        let log4 := log3 ++ slideLog
        let tyStr := ty.str
        let videoPath := s!"{outputDir}/{tyStr}_{number}_video.mp4"
        let composeCfg : ComposeConfig :=
          { resolution := jsOrStr config.videoConfig.resolution "1920x1080"
            fps := jsOrNatOpt config.videoConfig.fps 30
            bitrate := jsOrStr config.videoConfig.bitrate "5000k" }
        match composeVideo script audioResult.segments slidesResult.slides
            videoPath composeCfg o.ffmpeg with
        | .error e =>
          ({ success := false, error := some e, workingDir := workingDir }, log4)
        | .ok videoResult =>
          let doUpload := config.uploadToYouTube
            && jsTruthy config.youtubeClientId
            && jsTruthy config.youtubeClientSecret
            && jsTruthy config.youtubeRefreshToken
          let uploadStep : Except String (Option UploadResult) :=
            if doUpload then
              match o.uploadOutcome with
              | .error e => .error e
              | .ok ur =>
                if config.postToGitHub then
                  match postVideoLinkToGitHub o.postLinkResponse with
                  | .error e => .error e
                  | .ok _ => .ok (some ur)
                else .ok (some ur)
            else .ok none
          match uploadStep with
          | .error e =>
            ({ success := false, error := some e, workingDir := workingDir },
             log4)
          | .ok uploadResult =>
            let cleanupLog :=
              if config.keepIntermediateFiles then []
              else [FsAction.rmrf audioDir, FsAction.rmrf slidesDir]
            ({ success := true
               script := some script
               audioResult := some audioResult
               slidesResult := some slidesResult
               videoResult := some videoResult
               uploadResult := uploadResult
               error := none
               workingDir := workingDir }, log4 ++ cleanupLog)

/-- The first fatal error of a run, stage by stage in pipeline order —
the message the catch block stores in the failed result; `none` when
the run succeeds. -/
def pipelineFatalError (config : GenerationConfig) (o : PipelineOracles) :
    Option String :=
  match o.extract with
  | .error e => some e
  | .ok content =>
    match generateScript o.llmResponse o.decode content o.nowIso with
    | .error e => some e
    | .ok script0 =>
      let script := validateAndAdjustScript script0 600
      let ms := o.nowMs
      let workingDir := jsOrStr config.workingDir s!"/tmp/video-gen-{ms}"
      let audioDir := workingDir ++ "/audio"
      match generateAudio script audioDir 1 o.tts with
      | .error e => some e
      | .ok _ =>
        match o.ffmpeg with
        | .error e => some s!"Video composition failed: {e}"
        | .ok _ =>
          let doUpload := config.uploadToYouTube
            && jsTruthy config.youtubeClientId
            && jsTruthy config.youtubeClientSecret
            && jsTruthy config.youtubeRefreshToken
          if doUpload then
            match o.uploadOutcome with
            | .error e => some e
            | .ok _ =>
              if config.postToGitHub then
                match postVideoLinkToGitHub o.postLinkResponse with
                | .error e => some e
                | .ok _ => none
              else none
          else none

/-- Speech-service oracle that always succeeds. -/
def demoTts : Nat → String → Except String Unit := fun _ _ => Except.ok ()

/-- The orchestrator's slide style defaults. -/
def demoSlideCfg : SlideConfig :=
  { resolution := "1920x1080"
    backgroundColor := "#1a1a2e"
    textColor := "#ffffff"
    accentColor := "#00d4ff" }

/-- One-section sample script. -/
def introScript : VideoScript :=
  { title := "Demo"
    description := "d"
    sections :=
      [ { type := .intro, heading := "Introduction", narration := "hi"
          duration := 15 } ]
    estimatedDuration := 15
    metadata := { sourceType := .issue, sourceNumber := 6, generatedAt := "t0" } }

/-- Sample section for slide records. -/
def demoSec : ScriptSection :=
  { type := .intro, heading := "h", narration := "hi", duration := 15 }

/-- One audio segment, for the composer counterexample. -/
def caAudio : List AudioSegment :=
  [ { sectionIndex := 0, audioPath := "/a/0.mp3", duration := 2, text := "hi" } ]

/-- Two slides, one more than `caAudio` has segments. -/
def caSlides : List SlideImage :=
  [ { sectionIndex := 0, imagePath := "/s/0.png", «section» := demoSec }
  , { sectionIndex := 1, imagePath := "/s/1.png", «section» := demoSec } ]

/-- A single slide aligned with `caAudio`. -/
def caSlide0 : SlideImage :=
  { sectionIndex := 0, imagePath := "/s/0.png", «section» := demoSec }

/-- The duration estimate at the default speed, for the sample run. -/
def demoEst (s : String) : Nat :=
  estimateAudioDuration s 1

/-- The audio result of running `generateAudio` on `demoScript` with the
always-succeeding speech oracle, durations given by the analytic
estimate. -/
def demoAudioResult : AudioGenerationResult :=
  { segments :=
      [ { sectionIndex := 0, audioPath := "/a/section_0_intro.mp3"
          duration := demoEst "na", text := "na" }
      , { sectionIndex := 1, audioPath := "/a/section_1_main.mp3"
          duration := demoEst "nb", text := "nb" }
      , { sectionIndex := 2, audioPath := "/a/section_2_code.mp3"
          duration := demoEst "nc", text := "nc" }
      , { sectionIndex := 3, audioPath := "/a/section_3_summary.mp3"
          duration := demoEst "nd", text := "nd" }
      , { sectionIndex := 4, audioPath := "/a/section_4_outro.mp3"
          duration := demoEst "ne", text := "ne" } ]
    totalDuration :=
      demoEst "na" + (demoEst "nb" + (demoEst "nc"
        + (demoEst "nd" + (demoEst "ne" + 0))))
    outputDir := "/a" }

/-- The file writes performed by that run. -/
def demoAudioLog : List FsAction :=
  [ FsAction.write "/a/section_0_intro.mp3"
  , FsAction.write "/a/section_1_main.mp3"
  , FsAction.write "/a/section_2_code.mp3"
  , FsAction.write "/a/section_3_summary.mp3"
  , FsAction.write "/a/section_4_outro.mp3" ]

/-- Configuration with full upload credentials, upload and link-posting
enabled, and an explicit working directory. -/
def okConfig : GenerationConfig :=
  { githubToken := "g", owner := "o", repo := "r", openaiApiKey := "k"
    youtubeClientId := some "ci", youtubeClientSecret := some "cs"
    youtubeRefreshToken := some "rt", workingDir := some "/w"
    keepIntermediateFiles := false, uploadToYouTube := true
    postToGitHub := true }

/-- Oracles for a run in which every stage succeeds but the link post
receives a non-success status. -/
def okOracles : PipelineOracles :=
  { extract := .ok demoContent
    llmResponse := .ok "no block"
    decode := fun _ => none
    tts := demoTts
    ffmpeg := .ok ()
    uploadOutcome :=
      .ok { videoId := "id", url := "u", title := "t", uploadedAt := "a" }
    postLinkResponse := { ok := false, text := "500" }
    nowIso := "t0"
    nowMs := 0 }

/-- Oracles for a run whose extraction stage fails fatally. -/
def failOracles : PipelineOracles :=
  { extract := .error "boom"
    llmResponse := .ok "no block"
    decode := fun _ => none
    tts := demoTts
    ffmpeg := .ok ()
    uploadOutcome := .error "nope"
    postLinkResponse := { ok := true, text := "" }
    nowIso := "t0"
    nowMs := 0 }

/-! Theorems. -/

theorem jsOrNat_zero (d : Nat) : jsOrNat d 0 = d := by
  unfold jsOrNat
  split <;> omega

theorem foldl_add_duration (l : List ScriptSection) (a : Nat) :
    l.foldl (fun acc s => acc + s.duration) a
      = a + (l.map (fun s => s.duration)).sum := by
  induction l generalizing a with
  | nil => simp
  | cons x xs ih => simp [ih, Nat.add_assoc]

theorem sumDurations_eq (l : List ScriptSection) :
    sumDurations l = (l.map (fun s => s.duration)).sum := by
  simpa using foldl_add_duration l 0

theorem div_add_div_le (a b c : Nat) : a / c + b / c ≤ (a + b) / c := by
  rcases Nat.eq_zero_or_pos c with h | h
  · simp [h]
  · rw [Nat.le_div_iff_mul_le h, Nat.add_mul]
    exact Nat.add_le_add (Nat.div_mul_le_self a c) (Nat.div_mul_le_self b c)

theorem sum_map_div_le (l : List Nat) (c : Nat) :
    (l.map (fun x => x / c)).sum ≤ l.sum / c := by
  induction l with
  | nil => simp
  | cons x xs ih =>
    simp only [List.map_cons, List.sum_cons]
    exact le_trans (Nat.add_le_add_left ih _) (div_add_div_le x xs.sum c)

theorem sum_map_mul_const (l : List Nat) (m : Nat) :
    (l.map (fun x => x * m)).sum = l.sum * m := by
  induction l with
  | nil => simp
  | cons x xs ih => simp [ih, Nat.add_mul]

theorem scaled_total_le (l : List ScriptSection) (t m : Nat)
    (ht : (l.map (fun s => s.duration)).sum = t) (hpos : 0 < t) :
    sumDurations (l.map (fun s => { s with duration := s.duration * m / t }))
      ≤ m := by
  rw [sumDurations_eq, List.map_map]
  have h1 : ((l.map (fun s => s.duration * m / t))).sum ≤ m := by
    have h2 : (l.map (fun s => s.duration * m / t))
        = ((l.map (fun s => s.duration * m)).map (fun x => x / t)) := by
      simp [List.map_map]
    rw [h2]
    calc ((l.map (fun s => s.duration * m)).map (fun x => x / t)).sum
        ≤ (l.map (fun s => s.duration * m)).sum / t :=
          sum_map_div_le _ t
      _ = (l.map (fun s => s.duration)).sum * m / t := by
          rw [show (l.map (fun s => s.duration * m))
                = ((l.map (fun s => s.duration)).map (fun x => x * m)) by
              simp [List.map_map]]
          rw [sum_map_mul_const]
      _ = t * m / t := by rw [ht, Nat.mul_comm]
      _ = m := Nat.mul_div_cancel_left m hpos
  simpa [Function.comp] using h1

theorem validateAndAdjustScript_total_le (s : VideoScript) (m : Nat)
    (h : scriptConsistent s) :
    (validateAndAdjustScript s m).estimatedDuration ≤ m
      ∨ validateAndAdjustScript s m = s := by
  unfold validateAndAdjustScript
  split
  · exact Or.inr rfl
  · rename_i hgt
    push_neg at hgt
    left
    have hpos : 0 < s.estimatedDuration := lt_of_le_of_lt (Nat.zero_le m) hgt
    have ht : (s.sections.map (fun sec => sec.duration)).sum
        = s.estimatedDuration := by
      rw [scriptConsistent, sumDurations_eq] at h
      exact h.symm
    simpa using scaled_total_le s.sections s.estimatedDuration m ht hpos

/-- C1: every script produced by the generator — parsed from a model
reply or built as the fallback — and every script returned by the
duration normalizer (on a consistent input, per the data-model
invariant) has `estimatedDuration` equal to the sum of its section
durations. -/
theorem script_duration_invariant (decode : String → Option ParsedScript)
    (reply : String) (content : Content) (now : String)
    (s : VideoScript) (m : Nat) (h : scriptConsistent s) :
    scriptConsistent (parseScriptFromGPT decode reply content now)
      ∧ scriptConsistent (createFallbackScript content now)
      ∧ scriptConsistent (validateAndAdjustScript s m) := by
  have hfb : scriptConsistent (createFallbackScript content now) := by
    rfl
  refine ⟨?_, hfb, ?_⟩
  · unfold parseScriptFromGPT
    split
    · exact hfb
    · split
      · exact hfb
      · split
        · exact hfb
        · rename_i secs _
          show (secs.foldl (fun acc sec => acc + jsOrNat sec.duration 0) 0)
              = sumDurations secs
          have : (fun (acc : Nat) (sec : ScriptSection) =>
              acc + jsOrNat sec.duration 0)
              = (fun acc sec => acc + sec.duration) := by
            funext acc sec
            rw [jsOrNat_zero]
          rw [this]
          rfl
  · unfold validateAndAdjustScript
    split
    · exact h
    · rfl

/-- Closed witness for C1 at concrete inputs. -/
theorem script_duration_invariant_witness :
    scriptConsistent (parseScriptFromGPT (fun _ => none) "no block" demoContent "t0")
      ∧ scriptConsistent (validateAndAdjustScript demoScript 170) :=
  ⟨(script_duration_invariant (fun _ => none) "no block" demoContent "t0"
      demoScript 170 (by decide)).1,
   (script_duration_invariant (fun _ => none) "no block" demoContent "t0"
      demoScript 170 (by decide)).2.2⟩

theorem validate_of_le (s : VideoScript) (m : Nat)
    (h : s.estimatedDuration ≤ m) : validateAndAdjustScript s m = s := by
  unfold validateAndAdjustScript
  rw [if_pos h]

/-- C3: the normalizer returns the script unchanged when its total fits
the ceiling; otherwise every section duration becomes
`floor(duration * ceiling / total)` and the total is recomputed as the
sum of the scaled values, which (for a script satisfying the data-model
consistency invariant) is at most the ceiling. -/
theorem validateAndAdjustScript_spec (s : VideoScript) (m : Nat) :
    (s.estimatedDuration ≤ m → validateAndAdjustScript s m = s)
    ∧ (m < s.estimatedDuration →
        (validateAndAdjustScript s m).sections =
          s.sections.map (fun sec =>
            { sec with duration := sec.duration * m / s.estimatedDuration })
        ∧ (validateAndAdjustScript s m).estimatedDuration =
            sumDurations (validateAndAdjustScript s m).sections
        ∧ (scriptConsistent s →
            (validateAndAdjustScript s m).estimatedDuration ≤ m)) := by
  constructor
  · exact validate_of_le s m
  · intro hgt
    have hn : ¬ s.estimatedDuration ≤ m := by omega
    unfold validateAndAdjustScript
    rw [if_neg hn]
    refine ⟨rfl, rfl, ?_⟩
    intro hc
    have hpos : 0 < s.estimatedDuration := by omega
    have ht : (s.sections.map (fun sec => sec.duration)).sum
        = s.estimatedDuration := by
      rw [scriptConsistent, sumDurations_eq] at hc
      exact hc.symm
    simpa using scaled_total_le s.sections s.estimatedDuration m ht hpos

/-- Closed witness for C3: the five-section sample script with total 255
and ceiling 170 is rescaled to durations 10, 80, 30, 40, 10 with
recomputed total at most 170. -/
theorem validateAndAdjustScript_spec_witness :
    (validateAndAdjustScript demoScript 170).sections.map (fun sec => sec.duration)
      = [10, 80, 30, 40, 10]
    ∧ (validateAndAdjustScript demoScript 170).estimatedDuration ≤ 170 := by
  have h := (validateAndAdjustScript_spec demoScript 170).2 (by decide)
  refine ⟨?_, h.2.2 (by decide)⟩
  rw [h.1]
  decide

/-- C8: on scripts satisfying the data-model consistency invariant the
normalizer is idempotent — applying it twice with the same ceiling
yields the same script as applying it once. -/
theorem validateAndAdjustScript_idempotent (s : VideoScript) (m : Nat)
    (h : scriptConsistent s) :
    validateAndAdjustScript (validateAndAdjustScript s m) m
      = validateAndAdjustScript s m := by
  rcases validateAndAdjustScript_total_le s m h with hle | heq
  · exact validate_of_le _ _ hle
  · simp only [heq]

/-- Closed witness for C8 at the sample script and ceiling 170. -/
theorem validateAndAdjustScript_idempotent_witness :
    validateAndAdjustScript (validateAndAdjustScript demoScript 170) 170
      = validateAndAdjustScript demoScript 170 :=
  validateAndAdjustScript_idempotent demoScript 170 (by decide)

set_option maxRecDepth 8192 in
/-- Counterexample for C4 as stated: for the record with body `"hello"`
and a reply with no structured block, the fallback main-section
narration is `"hello..."`, not the first 500 characters `"hello"` of the
body. -/
theorem parse_fallback_claim_counterexample :
    ¬ (extractJsonBlock "plain text reply" = none →
        ((parseScriptFromGPT (fun _ => none) "plain text reply" demoContent
            "t0").sections[1]?.map (fun sec => sec.narration))
          = some (jsSubstring demoContent.body 500)) := by
  decide

/-- C4 (amended): a reply with no extractable structured block parses —
without raising — to the deterministic fallback script: exactly three
sections typed intro, main, summary with durations 15, 120 and 30, the
main narration being the first 500 characters of the record body
followed by an ellipsis, the main bullet points being up to 5 non-blank
body lines, and total duration 165. -/
theorem parse_fallback_spec (decode : String → Option ParsedScript)
    (reply : String) (content : Content) (now : String)
    (h : extractJsonBlock reply = none) :
    parseScriptFromGPT decode reply content now
      = createFallbackScript content now
    ∧ (createFallbackScript content now).sections.length = 3
    ∧ (createFallbackScript content now).sections.map (fun sec => sec.type)
        = [.intro, .main, .summary]
    ∧ (createFallbackScript content now).sections.map (fun sec => sec.duration)
        = [15, 120, 30]
    ∧ ((createFallbackScript content now).sections[1]?.map
        (fun sec => sec.narration))
        = some (jsSubstring content.body 500 ++ "...")
    ∧ ((createFallbackScript content now).sections[1]?.map
        (fun sec => sec.bulletPoints))
        = some (some (((content.body.splitOn "\n").filter
            (fun l => l.trim != "")).take 5))
    ∧ (createFallbackScript content now).estimatedDuration = 165 := by
  refine ⟨?_, rfl, rfl, rfl, rfl, rfl, rfl⟩
  unfold parseScriptFromGPT
  rw [h]

/-- Closed witness for C4 at a concrete block-free reply. -/
theorem parse_fallback_spec_witness :
    parseScriptFromGPT (fun _ => none) "just prose, nothing structured"
        demoContent "t0"
      = createFallbackScript demoContent "t0"
    ∧ (createFallbackScript demoContent "t0").estimatedDuration = 165 :=
  ⟨(parse_fallback_spec (fun _ => none) "just prose, nothing structured"
      demoContent "t0" (by decide)).1,
   (parse_fallback_spec (fun _ => none) "just prose, nothing structured"
      demoContent "t0" (by decide)).2.2.2.2.2.2⟩

theorem wsSplit_pos (n : Nat) :
    ∀ cs : List Char, cs.length ≤ n →
      (∀ cur, 1 ≤ (wsSplitTok cs cur).length) ∧ 1 ≤ (wsSplitSep cs).length := by
  induction n with
  | zero =>
    intro cs h
    have hnil : cs = [] := List.eq_nil_of_length_eq_zero (Nat.le_zero.mp h)
    subst hnil
    constructor
    · intro cur
      simp [wsSplitTok]
    · simp [wsSplitSep]
  | succ n ih =>
    intro cs hlen
    cases cs with
    | nil =>
      constructor
      · intro cur
        simp [wsSplitTok]
      · simp [wsSplitSep]
    | cons c rest =>
      have hr : rest.length ≤ n := by
        simpa [Nat.succ_le_succ_iff] using hlen
      constructor
      · intro cur
        unfold wsSplitTok
        split
        · simp
        · exact (ih rest hr).1 (c :: cur)
      · unfold wsSplitSep
        split
        · exact (ih rest hr).2
        · exact (ih rest hr).1 [c]

theorem wordCount_pos (text : String) : 1 ≤ wordCount text :=
  (wsSplit_pos text.data.length text.data le_rfl).1 []

theorem one_le_estimateAudioDuration (text : String) (speed : ℚ)
    (hs : 0 < speed) : 1 ≤ estimateAudioDuration text speed := by
  have hwc : (1 : ℚ) ≤ (wordCount text : ℚ) := by
    exact_mod_cast wordCount_pos text
  have hden : (0 : ℚ) < 2.5 * speed := by
    have h25 : (0 : ℚ) < 2.5 := by norm_num
    exact mul_pos h25 hs
  have hq : (0 : ℚ) < (wordCount text : ℚ) / (2.5 * speed) :=
    div_pos (lt_of_lt_of_le one_pos hwc) hden
  have hc : 0 < Int.ceil ((wordCount text : ℚ) / (2.5 * speed)) :=
    Int.ceil_pos.mpr hq
  simp only [estimateAudioDuration]
  omega

theorem generateAudioGo_ok_spec (tts : Nat → String → Except String Unit)
    (outputDir : String) (speed : ℚ) :
    ∀ (l : List ScriptSection) (i : Nat) (segs : List AudioSegment)
      (total : Nat) (log : List FsAction),
      generateAudioGo tts outputDir speed i l = .ok (segs, total, log) →
      segs.length
          = (l.filter (fun sec => !jsIsBlank sec.narration)).length
        ∧ total = (segs.map (fun seg => seg.duration)).sum
        ∧ (∀ seg ∈ segs, ∃ sec, sec ∈ l
            ∧ seg.duration = estimateAudioDuration sec.narration speed)
        ∧ (∀ p, FsAction.rmrf p ∉ log) := by
  intro l
  induction l with
  | nil =>
    intro i segs total log h
    simp only [generateAudioGo] at h
    injection h with h2
    injection h2 with ha hb
    injection hb with hc hd
    subst ha
    subst hc
    subst hd
    simp
  | cons sec rest ih =>
    intro i segs total log h
    simp only [generateAudioGo] at h
    by_cases hb : jsIsBlank sec.narration
    · rw [if_pos hb] at h
      obtain ⟨h1, h2, h3, h4⟩ := ih (i + 1) segs total log h
      refine ⟨?_, h2, ?_, h4⟩
      · simpa [List.filter_cons, hb] using h1
      · intro seg hseg
        obtain ⟨sec', hmem, hd⟩ := h3 seg hseg
        exact ⟨sec', List.mem_cons_of_mem _ hmem, hd⟩
    · rw [if_neg hb] at h
      rcases htts : tts i sec.narration with e | u
      · rw [htts] at h
        cases h
      · rw [htts] at h
        rcases hrec : generateAudioGo tts outputDir speed (i + 1) rest
          with e | p
        · rw [hrec] at h
          cases h
        · obtain ⟨segs', total', log'⟩ := p
          rw [hrec] at h
          injection h with h2
          injection h2 with ha hb
          injection hb with hc hd
          subst ha
          subst hc
          subst hd
          obtain ⟨ih1, ih2, ih3, ih4⟩ := ih (i + 1) segs' total' log' hrec
          refine ⟨?_, ?_, ?_, ?_⟩
          · simp [List.filter_cons, hb, ih1]
          · simp [ih2]
          · intro seg hseg
            rcases List.mem_cons.mp hseg with hh | ht
            · subst hh
              exact ⟨sec, List.mem_cons_self sec rest, rfl⟩
            · obtain ⟨sec', hmem, hd⟩ := ih3 seg ht
              exact ⟨sec', List.mem_cons_of_mem _ hmem, hd⟩
          · intro p
            simp [ih4 p]

theorem generateSlidesGo_spec (outputDir : String) :
    ∀ (l : List ScriptSection) (i : Nat),
      (generateSlidesGo outputDir i l).1.length = l.length
        ∧ (∀ p, FsAction.rmrf p ∉ (generateSlidesGo outputDir i l).2) := by
  intro l
  induction l with
  | nil =>
    intro i
    simp [generateSlidesGo]
  | cons sec rest ih =>
    intro i
    simp only [generateSlidesGo]
    rcases hrec : generateSlidesGo outputDir (i + 1) rest with ⟨slides', log'⟩
    have ihs := ih (i + 1)
    rw [hrec] at ihs
    constructor
    · simp [ihs.1]
    · intro p
      simp [ihs.2 p]

theorem length_le_sum_of_one_le (l : List Nat)
    (h : ∀ x ∈ l, 1 ≤ x) : l.length ≤ l.sum := by
  induction l with
  | nil => simp
  | cons x xs ih =>
    simp only [List.length_cons, List.sum_cons]
    have hx := h x (List.mem_cons_self x xs)
    have hxs := ih (fun y hy => h y (List.mem_cons_of_mem x hy))
    omega

/-- C6: when the audio stage returns, the number of audio segments is at
most the number of script sections, with equality exactly when no
section has blank or whitespace-only narration; the slide stage always
produces exactly one slide per section. -/
theorem segment_and_slide_counts (script : VideoScript)
    (audioDir slidesDir : String) (speed : ℚ)
    (tts : Nat → String → Except String Unit) (cfg : SlideConfig)
    (r : AudioGenerationResult) (log : List FsAction)
    (h : generateAudio script audioDir speed tts = .ok (r, log)) :
    r.segments.length ≤ script.sections.length
    ∧ (r.segments.length = script.sections.length
        ↔ ∀ sec ∈ script.sections, jsIsBlank sec.narration = false)
    ∧ (generateSlides script slidesDir cfg).1.slides.length
        = script.sections.length := by
  unfold generateAudio at h
  rcases hgo : generateAudioGo tts audioDir speed 0 script.sections
    with e | p
  · rw [hgo] at h
    cases h
  · obtain ⟨segs, total, lg⟩ := p
    rw [hgo] at h
    injection h with h2
    injection h2 with h3 h4
    have hseg : r.segments = segs := by rw [← h3]
    obtain ⟨hlen, _, _, _⟩ :=
      generateAudioGo_ok_spec tts audioDir speed script.sections 0
        segs total lg hgo
    rw [hseg]
    refine ⟨?_, ?_, ?_⟩
    · rw [hlen]
      exact List.length_filter_le _ _
    · rw [hlen]
      constructor
      · intro heq
        have hself :
            script.sections.filter (fun sec => !jsIsBlank sec.narration)
              = script.sections :=
          List.Sublist.eq_of_length (List.filter_sublist _) heq
        intro sec hmem
        have := (List.filter_eq_self.mp hself) sec hmem
        simpa using this
      · intro hall
        have hself :
            script.sections.filter (fun sec => !jsIsBlank sec.narration)
              = script.sections := by
          apply List.filter_eq_self.mpr
          intro a ha
          simp [hall a ha]
        rw [hself]
    · unfold generateSlides
      rcases hs : generateSlidesGo slidesDir 0 script.sections
        with ⟨slides', log'⟩
      have := (generateSlidesGo_spec slidesDir script.sections 0).1
      rw [hs] at this
      simpa using this

/-- Closed witness for C6: the five-section sample script with an
always-succeeding speech oracle yields five segments and five slides. -/
theorem segment_and_slide_counts_witness :
    demoAudioResult.segments.length ≤ demoScript.sections.length
    ∧ (generateSlides demoScript "/s" demoSlideCfg).1.slides.length
        = demoScript.sections.length :=
  ⟨(segment_and_slide_counts demoScript "/a" "/s" 1 demoTts demoSlideCfg
      demoAudioResult demoAudioLog rfl).1,
   (segment_and_slide_counts demoScript "/a" "/s" 1 demoTts demoSlideCfg
      demoAudioResult demoAudioLog rfl).2.2⟩

/-- C10: for any positive speed the analytic estimate is at least one
second for every narration text, so every produced segment has duration
at least one and the total duration is at least the number of
segments. -/
theorem audio_duration_positive (script : VideoScript) (audioDir : String)
    (speed : ℚ) (tts : Nat → String → Except String Unit)
    (r : AudioGenerationResult) (log : List FsAction)
    (hs : 0 < speed)
    (h : generateAudio script audioDir speed tts = .ok (r, log)) :
    (∀ text, 1 ≤ estimateAudioDuration text speed)
    ∧ (∀ seg ∈ r.segments, 1 ≤ seg.duration)
    ∧ r.segments.length ≤ r.totalDuration := by
  unfold generateAudio at h
  rcases hgo : generateAudioGo tts audioDir speed 0 script.sections
    with e | p
  · rw [hgo] at h
    cases h
  · obtain ⟨segs, total, lg⟩ := p
    rw [hgo] at h
    injection h with h2
    injection h2 with h3 h4
    have hseg : r.segments = segs := by rw [← h3]
    have htotr : r.totalDuration = total := by rw [← h3]
    obtain ⟨_, htot, hdur, _⟩ :=
      generateAudioGo_ok_spec tts audioDir speed script.sections 0
        segs total lg hgo
    have hone : ∀ seg ∈ segs, 1 ≤ seg.duration := by
      intro seg hsegm
      obtain ⟨sec, _, hd⟩ := hdur seg hsegm
      rw [hd]
      exact one_le_estimateAudioDuration sec.narration speed hs
    refine ⟨fun text => one_le_estimateAudioDuration text speed hs, ?_, ?_⟩
    · rw [hseg]
      exact hone
    · rw [hseg, htotr]
      show segs.length ≤ total
      rw [htot]
      have := length_le_sum_of_one_le (segs.map (fun seg => seg.duration))
        (by
          intro x hx
          obtain ⟨seg, hsegm, hx⟩ := List.mem_map.mp hx
          subst hx
          exact hone seg hsegm)
      simpa using this

/-- Closed witness for C10 at the sample run. -/
theorem audio_duration_positive_witness :
    1 ≤ estimateAudioDuration "hello world" 1
    ∧ demoAudioResult.segments.length ≤ demoAudioResult.totalDuration :=
  ⟨(audio_duration_positive demoScript "/a" 1 demoTts demoAudioResult
      demoAudioLog (by norm_num) rfl).1 "hello world",
   (audio_duration_positive demoScript "/a" 1 demoTts demoAudioResult
      demoAudioLog (by norm_num) rfl).2.2⟩

set_option maxRecDepth 8192 in
/-- C5 is contradicted by the code: evaluating the slide stage on a
one-section script shows the returned record names a `.png` path while
the writes performed are the `.html` debug file and the `.txt`
placeholder — nothing is ever produced at the named image path, and no
raster image is rendered at all. -/
theorem generateSlides_placeholder_divergence :
    (generateSlides introScript "/w/slides" demoSlideCfg).1.slides.map
        (fun s => s.imagePath)
      = ["/w/slides/slide_0_intro.png"]
    ∧ (generateSlides introScript "/w/slides" demoSlideCfg).2
      = [FsAction.write "/w/slides/slide_0_intro.html",
         FsAction.write "/w/slides/slide_0_intro.txt"]
    ∧ FsAction.write "/w/slides/slide_0_intro.png"
        ∉ (generateSlides introScript "/w/slides" demoSlideCfg).2 := by
  decide

theorem videoSegmentFilter_eq_spec (resolution : String) (fps i d : Nat) :
    videoSegmentFilter resolution fps i d
      = specStreamFilter resolution fps i d := by
  simp [videoSegmentFilter, specStreamFilter, Nat.mul_comm]

theorem buildFilterListGo_aligned (resolution : String) (fps : Nat)
    (audio : List AudioSegment) :
    ∀ (slides : List SlideImage) (i : Nat),
      audio.length = i + slides.length →
      buildFilterListGo audio resolution fps i slides
        = specStreamsGo resolution fps i (audio.drop i) := by
  intro slides
  induction slides with
  | nil =>
    intro i h
    have h0 : audio.length = i := by simpa using h
    have hd : audio.drop i = [] := by
      apply List.drop_eq_nil_of_le
      omega
    simp [buildFilterListGo, hd, specStreamsGo]
  | cons s rest ih =>
    intro i h
    have hi : i < audio.length := by
      simp only [List.length_cons] at h
      omega
    have ha : audio[i]? = some audio[i] := List.getElem?_eq_getElem hi
    have hdrop : audio.drop i = audio[i] :: audio.drop (i + 1) :=
      List.drop_eq_getElem_cons hi
    simp only [buildFilterListGo, ha, hdrop, specStreamsGo]
    rw [videoSegmentFilter_eq_spec]
    have hrest : audio.length = (i + 1) + rest.length := by
      simp only [List.length_cons] at h
      omega
    rw [ih (i + 1) hrest]

set_option maxRecDepth 8192 in
/-- Counterexample for C2 as stated: with one audio segment and two
slides the code's filter graph is not the graph with one stream per
audio segment — the concatenation stage references one stream label per
slide (`[v0][v1]`, `n=2`), including the label `[v1]` that no per-slide
filter produced. -/
theorem buildFilterComplex_claim_counterexample :
    buildFilterComplex caAudio caSlides "1920x1080" 30 0
      ≠ specFilterGraph caAudio "1920x1080" 30 := by
  decide

/-- C2 (amended): whenever the audio segment list and the slide list
have the same length — in the pipeline, whenever no section was skipped
for blank narration — the filter graph is exactly the claimed one: for
each index `i` into the audio segment list the slide at that index is
scaled to the resolution, set to the frame rate and looped for
`duration * fps` frames, and the streams concatenated are exactly those,
one per audio segment, in order. -/
theorem buildFilterComplex_aligned (audioSegments : List AudioSegment)
    (slides : List SlideImage) (resolution : String) (fps td : Nat)
    (h : audioSegments.length = slides.length) :
    buildFilterComplex audioSegments slides resolution fps td
      = specFilterGraph audioSegments resolution fps := by
  unfold buildFilterComplex specFilterGraph buildFilterList concatStageFilter
  have h1 : buildFilterListGo audioSegments resolution fps 0 slides
      = specStreamsGo resolution fps 0 audioSegments := by
    have := buildFilterListGo_aligned resolution fps audioSegments slides 0
      (by omega)
    simpa using this
  rw [h1, ← h]

/-- Closed witness for C2 at aligned one-element lists. -/
theorem buildFilterComplex_aligned_witness :
    buildFilterComplex caAudio [caSlide0] "1920x1080" 30 0
      = specFilterGraph caAudio "1920x1080" 30 :=
  buildFilterComplex_aligned caAudio [caSlide0] "1920x1080" 30 0 (by decide)

theorem generateAudio_ok_no_rm (script : VideoScript) (dir : String)
    (speed : ℚ) (tts : Nat → String → Except String Unit)
    (r : AudioGenerationResult) (log : List FsAction)
    (h : generateAudio script dir speed tts = .ok (r, log)) :
    ∀ p, FsAction.rmrf p ∉ log := by
  unfold generateAudio at h
  rcases hgo : generateAudioGo tts dir speed 0 script.sections with e | p
  · rw [hgo] at h
    cases h
  · obtain ⟨segs, total, lg⟩ := p
    rw [hgo] at h
    injection h with h2
    injection h2 with h3 h4
    subst h4
    exact (generateAudioGo_ok_spec tts dir speed script.sections 0
      segs total lg hgo).2.2.2

theorem generateSlides_no_rm (script : VideoScript) (dir : String)
    (cfg : SlideConfig) :
    ∀ p, FsAction.rmrf p ∉ (generateSlides script dir cfg).2 := by
  unfold generateSlides
  rcases hs : generateSlidesGo dir 0 script.sections with ⟨slides', log'⟩
  have := (generateSlidesGo_spec dir script.sections 0).2
  rw [hs] at this
  simpa using this

theorem generateVideo_characterization (ty : ContentType) (number : Nat)
    (config : GenerationConfig) (o : PipelineOracles) :
    (generateVideoFromIssueOrPR ty number config o).1.error
        = pipelineFatalError config o
    ∧ ((generateVideoFromIssueOrPR ty number config o).1.success = true
        ↔ pipelineFatalError config o = none)
    ∧ ((generateVideoFromIssueOrPR ty number config o).1.success = false →
        ∀ p, FsAction.rmrf p ∉ (generateVideoFromIssueOrPR ty number config o).2)
    ∧ (∀ p, FsAction.rmrf p ∈ (generateVideoFromIssueOrPR ty number config o).2 →
        (generateVideoFromIssueOrPR ty number config o).1.success = true
          ∧ config.keepIntermediateFiles = false) := by
  unfold generateVideoFromIssueOrPR pipelineFatalError
  rcases hex : o.extract with e | content
  · simp [hex]
  · simp only [hex]
    rcases hgs : generateScript o.llmResponse o.decode content o.nowIso
      with e | script0
    · simp [hgs]
    · simp only [hgs]
      rcases hga : generateAudio (validateAndAdjustScript script0 600)
        (jsOrStr config.workingDir (toString "/tmp/video-gen-" ++ toString o.nowMs ++ toString "") ++ "/audio")
        1 o.tts with e | apair
      · simp [hga]
      · obtain ⟨audioResult, audioLog⟩ := apair
        simp only [hga]
        have hanorm := generateAudio_ok_no_rm _ _ _ _ _ _ hga
        rcases hsl : generateSlides (validateAndAdjustScript script0 600)
          (jsOrStr config.workingDir (toString "/tmp/video-gen-" ++ toString o.nowMs ++ toString "") ++ "/slides")
          { resolution := jsOrStr config.videoConfig.resolution "1920x1080"
            backgroundColor := "#1a1a2e"
            textColor := "#ffffff"
            accentColor := "#00d4ff" } with ⟨slidesResult, slideLog⟩
        have hsnorm : ∀ p, FsAction.rmrf p ∉ slideLog := by
          have := generateSlides_no_rm (validateAndAdjustScript script0 600)
            (jsOrStr config.workingDir (toString "/tmp/video-gen-" ++ toString o.nowMs ++ toString "") ++ "/slides")
            { resolution := jsOrStr config.videoConfig.resolution "1920x1080"
              backgroundColor := "#1a1a2e"
              textColor := "#ffffff"
              accentColor := "#00d4ff" }
          rw [hsl] at this
          simpa using this
        simp only [hsl, composeVideo]
        rcases hff : o.ffmpeg with e | u
        · simp [hff, hanorm, hsnorm]
        · simp only [hff]
          rcases h1 : config.uploadToYouTube with _ | _ <;>
          rcases h2 : jsTruthy config.youtubeClientId with _ | _ <;>
          rcases h3 : jsTruthy config.youtubeClientSecret with _ | _ <;>
          rcases h4 : jsTruthy config.youtubeRefreshToken with _ | _ <;>
          rcases hup : o.uploadOutcome with e | ur <;>
          rcases hpg : config.postToGitHub with _ | _ <;>
          rcases hpok : o.postLinkResponse.ok with _ | _ <;>
          rcases hkeep : config.keepIntermediateFiles with _ | _ <;>
          simp [h1, h2, h3, h4, hkeep, hup, hpg, hpok, hanorm, hsnorm,
            postVideoLinkToGitHub]

/-- C7: a fatal error in any stage yields a failed result — never a
propagated exception — carrying that stage's error message, and no
removal of the intermediate audio and slides directories is performed;
removals happen only on the successful path and only when retention of
intermediate files was not requested. -/
theorem orchestrator_failure_contract (ty : ContentType) (number : Nat)
    (config : GenerationConfig) (o : PipelineOracles) :
    (generateVideoFromIssueOrPR ty number config o).1.error
        = pipelineFatalError config o
    ∧ ((generateVideoFromIssueOrPR ty number config o).1.success = true
        ↔ pipelineFatalError config o = none)
    ∧ ((generateVideoFromIssueOrPR ty number config o).1.success = false →
        ∀ p, FsAction.rmrf p ∉ (generateVideoFromIssueOrPR ty number config o).2)
    ∧ (∀ p, FsAction.rmrf p ∈ (generateVideoFromIssueOrPR ty number config o).2 →
        (generateVideoFromIssueOrPR ty number config o).1.success = true
          ∧ config.keepIntermediateFiles = false) :=
  generateVideo_characterization ty number config o

/-- Closed witness for C7: with a failing extraction stage the result is
failed, carries the message, and the audio subdirectory is not
removed. -/
theorem orchestrator_failure_contract_witness :
    (generateVideoFromIssueOrPR .issue 1 okConfig failOracles).1.error
        = some "boom"
    ∧ FsAction.rmrf "/w/audio"
        ∉ (generateVideoFromIssueOrPR .issue 1 okConfig failOracles).2 := by
  have h := orchestrator_failure_contract .issue 1 okConfig failOracles
  have hfe : pipelineFatalError okConfig failOracles = some "boom" := by decide
  have herr := h.1.trans hfe
  have hsucc : (generateVideoFromIssueOrPR .issue 1 okConfig
      failOracles).1.success = false := by
    rcases hb : (generateVideoFromIssueOrPR .issue 1 okConfig
        failOracles).1.success with _ | _
    · rfl
    · have := h.2.1.mp hb
      rw [this] at hfe
      cases hfe
  exact ⟨herr, h.2.2.1 hsucc "/w/audio"⟩

/-- C9: a link post that receives a non-success status returns normally
with the failure logged — there is no throw path — and a run whose other
stages all succeed succeeds regardless of the link-post response. -/
theorem postLink_nonfatal (ty : ContentType) (number : Nat)
    (config : GenerationConfig) (o : PipelineOracles)
    (hresp : o.postLinkResponse.ok = false)
    (hrest : pipelineFatalError config o = none) :
    postVideoLinkToGitHub o.postLinkResponse
        = Except.ok PostLinkOutcome.failedLogged
    ∧ (generateVideoFromIssueOrPR ty number config o).1.success = true := by
  constructor
  · unfold postVideoLinkToGitHub
    rw [hresp]
    simp
  · exact (generateVideo_characterization ty number config o).2.1.mpr hrest

/-- Closed witness for C9: a full run in which every stage succeeds but
the link post gets a non-success status still reports success. -/
theorem postLink_nonfatal_witness :
    postVideoLinkToGitHub okOracles.postLinkResponse
        = Except.ok PostLinkOutcome.failedLogged
    ∧ (generateVideoFromIssueOrPR .issue 6 okConfig okOracles).1.success
        = true :=
  postLink_nonfatal .issue 6 okConfig okOracles (by decide) (by decide)

end VideoGen
